import Mathlib

/-! HMC5883L magnetometer driver (`sensor_h43.c`)

A shallow embedding of the register-access functions and of the data-ready
interrupt handler of the driver, followed by theorems about them.

Conventions of the embedding.

* `u8`, `u16` values are naturals; every implicit conversion to an unsigned
  type is an explicit `% 2^w`.
* `s32` / `int` values are integers.  The bitwise operators of C act on the
  32-bit two's-complement pattern of their operands (`s32_bits`,
  `s32_of_bits`); `>>` on a signed operand is the arithmetic shift.
* The I2C bus is a parameter: an arbitrary device state with a read and a
  write transaction, each returning the `s32` result of the SMBus call and
  the next device state.
* Every bus transaction, lock operation, log line and store to the cached
  axes is appended to a trace, oldest event first.
-/

namespace Hmc5883l

/-! ## Machine integers -/

/-- Conversion of a C integer to `u8`. -/
def to_u8 (x : Int) : Nat := (x % 256).toNat

/-- Conversion of a C integer to `u16`. -/
def to_u16 (x : Int) : Nat := (x % 65536).toNat

/-- The 32-bit two's-complement pattern of an `int`. -/
def s32_bits (x : Int) : Nat := (x % 4294967296).toNat

/-- The `int` denoted by a 32-bit pattern. -/
def s32_of_bits (n : Nat) : Int :=
  if n % 4294967296 < 2147483648 then ((n % 4294967296 : Nat) : Int)
  else ((n % 4294967296 : Nat) : Int) - 4294967296

/-- C `a & b` on `int` operands. -/
def s32_and (a b : Int) : Int := s32_of_bits (s32_bits a &&& s32_bits b)

/-- C `a << n` on `int` operands, on the 32-bit pattern. -/
def s32_shl (a : Int) (n : Nat) : Int := s32_of_bits (s32_bits a <<< n)

/-- C `a >> n` on a signed `int` operand (arithmetic shift). -/
def s32_shr (a : Int) (n : Nat) : Int := a >>> n

/-! ## Constants of the source -/

def EINVAL : Int := 22
def EBUSY : Int := 16
def IRQ_HANDLED : Nat := 1

def HMC5883L_CONFIG_REG_A : Nat := 0x00
/-- Macro `TOBE_CLEAR`, defined as `1<<7`. -/
def TOBE_CLEAR : Int := s32_shl 1 7
def SAMPLE_AVER : Int := 0x3
def SAMPLE_AVER_OFFSET : Nat := 5
def DATA_OUT_RATE_OFFSET : Nat := 2
/-- Macro `MESURE_SETTING`, defined as `3<<0`. -/
def MESURE_SETTING : Int := s32_shl 3 0
def DATA_OUT_RATE : Int := 0x7

def NORMAL_MESURA : Int := 0
def POSITIVE_MESURA : Int := 1
def NEGATIVE_MESURA : Int := 2
def MAX_MESURA : Int := 3

def HMC5883L_CONFIG_REG_B : Nat := 0x01
def GAIN_SETTING : Int := 0x7
def GAIN_SETTING_OFFSET : Nat := 5

def HMC5883L_MODE_REG : Nat := 0x02
/-- Macro `MODE_SETTING`, defined as `3<<0`. -/
def MODE_SETTING : Int := s32_shl 3 0

def CONTINOUS_MODE : Int := 0
def SINGLE_MODE : Int := 1
def IDLE_MODE : Int := 2
def MAX_MODE : Int := 3

def HMC5883L_DATA_OUT_REG : Nat := 0x03
def HMC5883L_STATUS_REG : Nat := 0x09
def DATA_LOCK : Int := 0x1
def DATA_LOCK_OFFSET : Nat := 1
/-- Macro `DATA_READY`, defined as `1<0`: the relational expression `1 < 0`, an `int`
that is 1 when the comparison holds and 0 otherwise.  In its only use,
`result & DATA_READY`, the expansion is `result & 1<0`, which C parses as
`result & (1<0)` because `<` binds tighter than `&`. -/
def DATA_READY : Int := if (1 : Int) < 0 then 1 else 0

def HMC5883L_IDENTIFY_REG_A : Nat := 0x0A
def HMC5883L_IDENTIFY_REG_B : Nat := 0x0B
def HMC5883L_IDENTIFY_REG_C : Nat := 0x0C

/-! ## State -/

/-- Observable events, in program order. -/
inductive Event where
  | bus_read (reg : Nat)
  | bus_write (reg : Nat) (val : Nat)
  | mutex_lock
  | mutex_unlock
  | store_x (val : Nat)
  | store_y (val : Nat)
  | store_z (val : Nat)
  | log_E
  | log_D
  deriving DecidableEq, Repr

/-- The fields of `struct sensor_hmc5883l`; `lock` records whether the mutex
is held, the `client` pointer is the bus parameter of the functions. -/
structure sensor_hmc5883l where
  lock : Bool
  x_axis : Nat
  y_axis : Nat
  z_axis : Nat
  sample : Nat
  out_rate : Nat
  mesura_set : Nat
  mode : Nat
  gain : Nat
  deriving DecidableEq, Repr

/-- The SMBus transactions the driver uses, over a device state `σ`.  Each
returns the `s32` result of the call (a negative errno, or for a read the
byte read, or for a write 0) and the next device state. -/
structure I2cBus (σ : Type) where
  i2c_smbus_read_byte_data : σ → Nat → Int × σ
  i2c_smbus_write_byte_data : σ → Nat → Nat → Int × σ

/-- Device state, the driver's global `*hmc5883l`, and the event trace. -/
structure World (σ : Type) where
  dev : σ
  hmc5883l : sensor_hmc5883l
  trace : List Event

variable {σ : Type}

/-- The `E(...)` log line of `log.h`. -/
def E (w : World σ) : World σ := { w with trace := w.trace ++ [Event.log_E] }

/-- The `D(...)` log line of `log.h`. -/
def D (w : World σ) : World σ := { w with trace := w.trace ++ [Event.log_D] }

def mutex_lock (w : World σ) : World σ :=
  { w with hmc5883l := { w.hmc5883l with lock := true },
           trace := w.trace ++ [Event.mutex_lock] }

def mutex_unlock (w : World σ) : World σ :=
  { w with hmc5883l := { w.hmc5883l with lock := false },
           trace := w.trace ++ [Event.mutex_unlock] }

/-! ## Register access -/

def hmc5883l_write_byte (client : I2cBus σ) (reg : Nat) (val : Int)
    (w : World σ) : Int × World σ :=
  let r := client.i2c_smbus_write_byte_data w.dev (reg % 256) (to_u8 val)
  (r.1, { w with dev := r.2,
                 trace := w.trace ++ [Event.bus_write (reg % 256) (to_u8 val)] })

def hmc5883l_read_byte (client : I2cBus σ) (reg : Nat)
    (w : World σ) : Int × World σ :=
  let r := client.i2c_smbus_read_byte_data w.dev (reg % 256)
  (r.1, { w with dev := r.2, trace := w.trace ++ [Event.bus_read (reg % 256)] })

def hmc5883l_set_mode (client : I2cBus σ) (mode : Nat)
    (w : World σ) : Int × World σ :=
  let mode : Nat := to_u8 (s32_and (mode : Int) MODE_SETTING)
  if (mode : Int) ≥ MAX_MODE then
    (-EINVAL, E w)
  else
    let r := hmc5883l_write_byte client HMC5883L_MODE_REG (mode : Int) w
    (if r.1 > 0 then -EBUSY else r.1, r.2)

def hmc5883l_get_mode (client : I2cBus σ) (w : World σ) : Int × World σ :=
  let r := hmc5883l_read_byte client HMC5883L_MODE_REG w
  (s32_and r.1 (HMC5883L_MODE_REG : Int), r.2)

def hmc5883l_set_gain (client : I2cBus σ) (gain : Nat)
    (w : World σ) : Int × World σ :=
  let gain : Nat := to_u8 (s32_and (gain : Int) GAIN_SETTING)
  if (gain : Int) > 7 ∨ (gain : Int) < 0 then
    (-EINVAL, E w)
  else
    let r := hmc5883l_write_byte client HMC5883L_CONFIG_REG_B
      (s32_shl (gain : Int) GAIN_SETTING_OFFSET) w
    (if r.1 > 0 then -EBUSY else r.1, r.2)

def hmc5883l_get_gain (client : I2cBus σ) (w : World σ) : Nat × World σ :=
  let r := hmc5883l_read_byte client HMC5883L_CONFIG_REG_B w
  (to_u8 (s32_and (s32_shr r.1 GAIN_SETTING_OFFSET) GAIN_SETTING), r.2)

def hmc5883l_set_mesura (client : I2cBus σ) (mesura : Nat)
    (w : World σ) : Int × World σ :=
  let mesura : Nat := to_u8 (s32_and (mesura : Int) MESURE_SETTING)
  hmc5883l_write_byte client HMC5883L_CONFIG_REG_A (mesura : Int) w

def hmc5883l_get_mesura (client : I2cBus σ) (w : World σ) : Nat × World σ :=
  let r := hmc5883l_read_byte client HMC5883L_CONFIG_REG_A w
  (to_u8 (s32_and r.1 MESURE_SETTING), r.2)

def hmc5883l_set_data_out_rate (_client : I2cBus σ) (rate : Nat)
    (w : World σ) : Int × World σ :=
  let rate : Nat := to_u8 (s32_and (rate : Int) DATA_OUT_RATE)
  if (rate : Int) ≥ 7 ∨ (rate : Int) < 0 then
    (-EINVAL, E w)
  else
    (0, w)

def hmc5883l_get_version (client : I2cBus σ) (w : World σ) : Int × World σ :=
  hmc5883l_read_byte client HMC5883L_CONFIG_REG_A w

def hmc5883l_is_data_ready (client : I2cBus σ) (w : World σ) : Bool × World σ :=
  let r := hmc5883l_read_byte client HMC5883L_STATUS_REG w
  (if s32_and r.1 DATA_READY ≠ 0 then true else false, r.2)

def hmc5883l_is_reg_locked (client : I2cBus σ) (w : World σ) : Bool × World σ :=
  let r := hmc5883l_read_byte client HMC5883L_STATUS_REG w
  (if s32_and (s32_shr r.1 DATA_LOCK_OFFSET) DATA_LOCK ≠ 0 then true else false, r.2)

/-! ## Interrupt handler and probe -/

def set_x_axis (v : Int) (w : World σ) : World σ :=
  { w with hmc5883l := { w.hmc5883l with x_axis := to_u16 v },
           trace := w.trace ++ [Event.store_x (to_u16 v)] }

def set_y_axis (v : Int) (w : World σ) : World σ :=
  { w with hmc5883l := { w.hmc5883l with y_axis := to_u16 v },
           trace := w.trace ++ [Event.store_y (to_u16 v)] }

def set_z_axis (v : Int) (w : World σ) : World σ :=
  { w with hmc5883l := { w.hmc5883l with z_axis := to_u16 v },
           trace := w.trace ++ [Event.store_z (to_u16 v)] }

/-- The three reads of the data register in the guarded branch. -/
def capture (client : I2cBus σ) (w : World σ) : World σ :=
  let rx := hmc5883l_read_byte client HMC5883L_DATA_OUT_REG w
  let wx := set_x_axis rx.1 rx.2
  let ry := hmc5883l_read_byte client HMC5883L_DATA_OUT_REG wx
  let wy := set_y_axis ry.1 ry.2
  let rz := hmc5883l_read_byte client HMC5883L_DATA_OUT_REG wy
  set_z_axis rz.1 rz.2

def hmc5883l_interrupt (client : I2cBus σ) (_irq : Int)
    (w : World σ) : Nat × World σ :=
  let w0 := mutex_lock w
  let ready := hmc5883l_is_data_ready client w0
  let w1 :=
    if ready.1 then
      let locked := hmc5883l_is_reg_locked client ready.2
      if locked.1 then capture client locked.2 else D locked.2
    else D ready.2
  (IRQ_HANDLED, mutex_unlock w1)

def hmc5883l_probe (client : I2cBus σ) (w : World σ) : Int × World σ :=
  let version_value := hmc5883l_get_version client w
  (0, D version_value.2)

/-! ## Trace observations -/

/-- The events appended to the trace between two worlds. -/
def issued (w w1 : World σ) : List Event := w1.trace.drop w.trace.length

/-- Number of bus reads of register `reg` among the events. -/
def count_reads (reg : Nat) (evs : List Event) : Nat :=
  evs.count (Event.bus_read reg)

/-- The bus writes among the events, as (register, value) pairs. -/
def bus_writes : List Event → List (Nat × Nat)
  | [] => []
  | Event.bus_write reg val :: evs => (reg, val) :: bus_writes evs
  | _ :: evs => bus_writes evs

/-- The bus reads among the events, as register addresses. -/
def bus_reads : List Event → List Nat
  | [] => []
  | Event.bus_read reg :: evs => reg :: bus_reads evs
  | _ :: evs => bus_reads evs

/-- Scan of a sequence of events for the lock discipline, from the state
`held` of the mutex.  The scan fails (`none`) when the mutex is acquired while
held, released while free, or when a bus transaction or a store to an axis
happens while it is free; log lines are allowed anywhere.  Otherwise it
returns the state of the mutex after the events. -/
def lock_scan : Bool → List Event → Option Bool
  | held, [] => some held
  | held, Event.mutex_lock :: evs => if held then none else lock_scan true evs
  | held, Event.mutex_unlock :: evs => if held then lock_scan false evs else none
  | held, Event.log_E :: evs => lock_scan held evs
  | held, Event.log_D :: evs => lock_scan held evs
  | held, Event.bus_read _ :: evs => if held then lock_scan held evs else none
  | held, Event.bus_write _ _ :: evs => if held then lock_scan held evs else none
  | held, Event.store_x _ :: evs => if held then lock_scan held evs else none
  | held, Event.store_y _ :: evs => if held then lock_scan held evs else none
  | held, Event.store_z _ :: evs => if held then lock_scan held evs else none

/-! ## Test devices -/

/-- A register file: a read returns the byte stored at the register, a write
stores the byte and returns 0. -/
def regfile_bus : I2cBus (Nat → Nat) where
  i2c_smbus_read_byte_data := fun regs reg => ((regs reg : Nat), regs)
  i2c_smbus_write_byte_data := fun regs reg val =>
    (0, fun r => if r = reg then val else regs r)

/-- A device with a fixed status byte whose data register yields the queued
bytes one after the other (the device auto-increments on successive reads). -/
def fifo_bus : I2cBus (Int × List Int) where
  i2c_smbus_read_byte_data := fun d reg =>
    if reg = HMC5883L_STATUS_REG then (d.1, d)
    else if reg = HMC5883L_DATA_OUT_REG then (d.2.headD 0, (d.1, d.2.tail))
    else (0, d)
  i2c_smbus_write_byte_data := fun d _ _ => (0, d)

/-- A bus whose every transaction returns the same result. -/
def const_bus (r : Int) : I2cBus Unit where
  i2c_smbus_read_byte_data := fun _ _ => (r, ())
  i2c_smbus_write_byte_data := fun _ _ _ => (r, ())

def sensor_zero : sensor_hmc5883l :=
  { lock := false, x_axis := 0, y_axis := 0, z_axis := 0,
    sample := 0, out_rate := 0, mesura_set := 0, mode := 0, gain := 0 }

/-- A world with the given device state, zeroed driver state, empty trace. -/
def world_init (d : σ) : World σ := { dev := d, hmc5883l := sensor_zero, trace := [] }

end Hmc5883l

namespace Hmc5883l

variable {σ : Type}

/-! ## Arithmetic of the masks and shifts -/

theorem s32_of_bits_small (n : Nat) (h : n < 2147483648) : s32_of_bits n = (n : Int) := by
  unfold s32_of_bits
  have hn : n % 4294967296 = n := Nat.mod_eq_of_lt (by omega)
  rw [hn, if_pos h]

theorem s32_and_seven (a : Int) : s32_and a 7 = a % 8 := by
  unfold s32_and
  have hmask : s32_bits 7 = 2 ^ 3 - 1 := by decide
  rw [hmask, Nat.and_pow_two_sub_one_eq_mod, s32_of_bits_small _ (by omega)]
  unfold s32_bits
  omega

theorem s32_and_three (a : Int) : s32_and a 3 = a % 4 := by
  unfold s32_and
  have hmask : s32_bits 3 = 2 ^ 2 - 1 := by decide
  rw [hmask, Nat.and_pow_two_sub_one_eq_mod, s32_of_bits_small _ (by omega)]
  unfold s32_bits
  omega

theorem s32_and_zero (a : Int) : s32_and a 0 = 0 := by
  unfold s32_and
  have hmask : s32_bits 0 = 0 := by decide
  rw [hmask, Nat.and_zero]
  decide

theorem val_MODE_SETTING : MODE_SETTING = 3 := by decide

theorem val_MESURE_SETTING : MESURE_SETTING = 3 := by decide

theorem val_DATA_READY : DATA_READY = 0 := by decide

/-- The masked gain of `hmc5883l_set_gain` is the argument modulo 8. -/
theorem gain_field (g : Nat) : to_u8 (s32_and (g : Int) GAIN_SETTING) = g % 8 := by
  unfold GAIN_SETTING
  rw [s32_and_seven]
  unfold to_u8
  omega

/-- The masked mode of `hmc5883l_set_mode` is the argument modulo 4. -/
theorem mode_field (m : Nat) : to_u8 (s32_and (m : Int) MODE_SETTING) = m % 4 := by
  rw [val_MODE_SETTING, s32_and_three]
  unfold to_u8
  omega

/-- The masked bias of `hmc5883l_set_mesura` is the argument modulo 4. -/
theorem mesura_field (m : Nat) : to_u8 (s32_and (m : Int) MESURE_SETTING) = m % 4 := by
  rw [val_MESURE_SETTING, s32_and_three]
  unfold to_u8
  omega

/-- The masked rate of `hmc5883l_set_data_out_rate` is the argument modulo 8. -/
theorem rate_field (r : Nat) : to_u8 (s32_and (r : Int) DATA_OUT_RATE) = r % 8 := by
  unfold DATA_OUT_RATE
  rw [s32_and_seven]
  unfold to_u8
  omega

/-- The byte `gain << GAIN_SETTING_OFFSET` passed to the bus, for a masked gain. -/
theorem gain_byte (g : Nat) :
    to_u8 (s32_shl ((g % 8 : Nat) : Int) GAIN_SETTING_OFFSET) = (g % 8) <<< 5 := by
  unfold s32_shl GAIN_SETTING_OFFSET
  have hbits : s32_bits ((g % 8 : Nat) : Int) = g % 8 := by
    unfold s32_bits
    omega
  have hshift : (g % 8) <<< 5 = (g % 8) * 32 := by
    rw [Nat.shiftLeft_eq]
  rw [hbits, hshift, s32_of_bits_small _ (by omega)]
  unfold to_u8
  omega

/-! ## The functions, with the masks evaluated -/

theorem issued_append (w w1 : World σ) (evs : List Event)
    (h : w1.trace = w.trace ++ evs) : issued w w1 = evs := by
  unfold issued
  rw [h, List.drop_left]

theorem set_gain_eq (client : I2cBus σ) (g : Nat) (w : World σ) :
    hmc5883l_set_gain client g w =
      ((if (client.i2c_smbus_write_byte_data w.dev 1 ((g % 8) <<< 5)).1 > 0 then -EBUSY
        else (client.i2c_smbus_write_byte_data w.dev 1 ((g % 8) <<< 5)).1),
       { w with dev := (client.i2c_smbus_write_byte_data w.dev 1 ((g % 8) <<< 5)).2,
                trace := w.trace ++ [Event.bus_write 1 ((g % 8) <<< 5)] }) := by
  unfold hmc5883l_set_gain
  simp only [gain_field]
  have hvalid : ¬ (((g % 8 : Nat) : Int) > 7 ∨ ((g % 8 : Nat) : Int) < 0) := by omega
  rw [if_neg hvalid]
  simp only [hmc5883l_write_byte, gain_byte, HMC5883L_CONFIG_REG_B]

theorem set_mode_eq_valid (client : I2cBus σ) (m : Nat) (w : World σ) (h : m % 4 < 3) :
    hmc5883l_set_mode client m w =
      ((if (client.i2c_smbus_write_byte_data w.dev 2 (m % 4)).1 > 0 then -EBUSY
        else (client.i2c_smbus_write_byte_data w.dev 2 (m % 4)).1),
       { w with dev := (client.i2c_smbus_write_byte_data w.dev 2 (m % 4)).2,
                trace := w.trace ++ [Event.bus_write 2 (m % 4)] }) := by
  unfold hmc5883l_set_mode
  simp only [mode_field]
  have hvalid : ¬ (((m % 4 : Nat) : Int) ≥ MAX_MODE) := by
    unfold MAX_MODE
    omega
  rw [if_neg hvalid]
  have hbyte : to_u8 ((m % 4 : Nat) : Int) = m % 4 := by
    unfold to_u8
    omega
  simp only [hmc5883l_write_byte, hbyte, HMC5883L_MODE_REG]

theorem set_mode_eq_invalid (client : I2cBus σ) (m : Nat) (w : World σ) (h : m % 4 = 3) :
    hmc5883l_set_mode client m w = (-EINVAL, E w) := by
  unfold hmc5883l_set_mode
  simp only [mode_field]
  have hinvalid : ((m % 4 : Nat) : Int) ≥ MAX_MODE := by
    unfold MAX_MODE
    omega
  rw [if_pos hinvalid]

theorem set_mesura_eq (client : I2cBus σ) (m : Nat) (w : World σ) :
    hmc5883l_set_mesura client m w =
      ((client.i2c_smbus_write_byte_data w.dev 0 (m % 4)).1,
       { w with dev := (client.i2c_smbus_write_byte_data w.dev 0 (m % 4)).2,
                trace := w.trace ++ [Event.bus_write 0 (m % 4)] }) := by
  unfold hmc5883l_set_mesura
  simp only [mesura_field]
  have hbyte : to_u8 ((m % 4 : Nat) : Int) = m % 4 := by
    unfold to_u8
    omega
  simp only [hmc5883l_write_byte, hbyte, HMC5883L_CONFIG_REG_A]

/-- The readiness test never succeeds: the mask `DATA_READY` is 0. -/
theorem is_data_ready_eq (client : I2cBus σ) (w : World σ) :
    hmc5883l_is_data_ready client w =
      (false, { w with dev := (client.i2c_smbus_read_byte_data w.dev 9).2,
                       trace := w.trace ++ [Event.bus_read 9] }) := by
  unfold hmc5883l_is_data_ready
  simp only [val_DATA_READY, s32_and_zero, hmc5883l_read_byte, HMC5883L_STATUS_REG]
  rfl

theorem interrupt_eq (client : I2cBus σ) (irq : Int) (w : World σ) :
    hmc5883l_interrupt client irq w =
      (IRQ_HANDLED,
       { dev := (client.i2c_smbus_read_byte_data w.dev 9).2,
         hmc5883l := { w.hmc5883l with lock := false },
         trace := w.trace ++ [Event.mutex_lock, Event.bus_read 9, Event.log_D,
                              Event.mutex_unlock] }) := by
  unfold hmc5883l_interrupt
  simp [is_data_ready_eq, mutex_lock, mutex_unlock, D]

/-! ## Data-ready interrupt -/

/-- C1 (the code departs from the claim): on a device whose status byte is 3
(data-ready bit and lock bit both set) and whose data register would yield
17, 34, 51, the handler reads the status register once, logs, and returns:
it issues no read of the data register 0x03 and the axes keep their old value
0, although the lock test succeeds on that device and the capture branch, if
reached, would store 17, 34, 51. -/
theorem interrupt_ready_locked_skips_capture :
    (hmc5883l_interrupt fifo_bus 0 (world_init (3, [17, 34, 51]))).2.trace
        = [Event.mutex_lock, Event.bus_read 9, Event.log_D, Event.mutex_unlock]
      ∧ count_reads HMC5883L_DATA_OUT_REG
          (hmc5883l_interrupt fifo_bus 0 (world_init (3, [17, 34, 51]))).2.trace = 0
      ∧ (hmc5883l_interrupt fifo_bus 0 (world_init (3, [17, 34, 51]))).2.hmc5883l.x_axis = 0
      ∧ (hmc5883l_interrupt fifo_bus 0 (world_init (3, [17, 34, 51]))).2.hmc5883l.y_axis = 0
      ∧ (hmc5883l_interrupt fifo_bus 0 (world_init (3, [17, 34, 51]))).2.hmc5883l.z_axis = 0
      ∧ (hmc5883l_is_data_ready fifo_bus (world_init (3, [17, 34, 51]))).1 = false
      ∧ (hmc5883l_is_reg_locked fifo_bus (world_init (3, [17, 34, 51]))).1 = true
      ∧ (capture fifo_bus (world_init (3, [17, 34, 51]))).hmc5883l.x_axis = 17
      ∧ (capture fifo_bus (world_init (3, [17, 34, 51]))).hmc5883l.y_axis = 34
      ∧ (capture fifo_bus (world_init (3, [17, 34, 51]))).hmc5883l.z_axis = 51 := by
  decide

/-- C2: when the status register read returns a byte whose data-ready bit
(bit 0) is clear, whatever its lock bit, the handler leaves `x_axis`,
`y_axis`, `z_axis` as they were and issues no read of the data register
0x03. -/
theorem interrupt_not_ready_frame (client : I2cBus σ) (irq : Int) (w : World σ)
    (status : Nat) (hbyte : status < 256) (hclear : status &&& 1 = 0)
    (hbus : (client.i2c_smbus_read_byte_data w.dev HMC5883L_STATUS_REG).1 = (status : Int)) :
    (hmc5883l_interrupt client irq w).2.hmc5883l.x_axis = w.hmc5883l.x_axis
      ∧ (hmc5883l_interrupt client irq w).2.hmc5883l.y_axis = w.hmc5883l.y_axis
      ∧ (hmc5883l_interrupt client irq w).2.hmc5883l.z_axis = w.hmc5883l.z_axis
      ∧ count_reads HMC5883L_DATA_OUT_REG
          (issued w (hmc5883l_interrupt client irq w).2) = 0 := by
  have htrace : issued w (hmc5883l_interrupt client irq w).2
      = [Event.mutex_lock, Event.bus_read 9, Event.log_D, Event.mutex_unlock] :=
    issued_append _ _ _ (by rw [interrupt_eq])
  rw [htrace, interrupt_eq]
  refine ⟨rfl, rfl, rfl, ?_⟩
  decide

/-- Witness of C2: a register file whose status register holds 2 (lock bit
set, ready bit clear) and whose data register holds 77. -/
theorem interrupt_not_ready_frame_witness :
    (2 : Nat) < 256 ∧ (2 : Nat) &&& 1 = 0
      ∧ (hmc5883l_interrupt regfile_bus 0
          (world_init (fun r => if r = 9 then 2 else 77))).2.hmc5883l.x_axis = 0
      ∧ count_reads HMC5883L_DATA_OUT_REG
          (issued (world_init (fun r => if r = 9 then 2 else 77))
            (hmc5883l_interrupt regfile_bus 0
              (world_init (fun r => if r = 9 then 2 else 77))).2) = 0 :=
  have h := interrupt_not_ready_frame regfile_bus 0
    (world_init (fun r => if r = 9 then 2 else 77)) 2 (by decide) (by decide) (by decide)
  ⟨by decide, by decide, h.1, h.2.2.2⟩

/-! ## Gain -/

/-- C3: gain round trip.  For a gain index `g` in 0..7, let `b` be the byte
that `hmc5883l_set_gain g` writes to configuration register B; on any bus
whose read of register 0x01 returns `b`, `hmc5883l_get_gain` returns `g`. -/
theorem gain_round_trip {τ : Type} (client : I2cBus σ) (w : World σ) (g b : Nat)
    (hg : g ≤ 7)
    (hwrite : issued w (hmc5883l_set_gain client g w).2
      = [Event.bus_write HMC5883L_CONFIG_REG_B b])
    (client2 : I2cBus τ) (w2 : World τ)
    (hread : (client2.i2c_smbus_read_byte_data w2.dev HMC5883L_CONFIG_REG_B).1 = (b : Int)) :
    (hmc5883l_get_gain client2 w2).1 = g := by
  have htrace : issued w (hmc5883l_set_gain client g w).2
      = [Event.bus_write 1 ((g % 8) <<< 5)] :=
    issued_append _ _ _ (by rw [set_gain_eq])
  rw [htrace] at hwrite
  have hb : b = (g % 8) <<< 5 := by
    injection hwrite with hhead _
    injection hhead with _ hval
    exact hval.symm
  unfold HMC5883L_CONFIG_REG_B at hread
  simp only [hmc5883l_get_gain, hmc5883l_read_byte, HMC5883L_CONFIG_REG_B, Nat.one_mod,
    hread, hb]
  interval_cases g <;> decide

/-- Witness of C3 on a register file, for the gain index 3 and the byte 96. -/
theorem gain_round_trip_witness :
    (hmc5883l_get_gain regfile_bus
      (hmc5883l_set_gain regfile_bus 3 (world_init (fun _ => 0))).2).1 = 3 :=
  gain_round_trip regfile_bus (world_init (fun _ => 0)) 3 96 (by decide) (by decide)
    regfile_bus (hmc5883l_set_gain regfile_bus 3 (world_init (fun _ => 0))).2 (by decide)

/-- C4: for a gain index `g` in 0..7, when the bus write returns 0,
`hmc5883l_set_gain g` issues exactly one bus transaction, the write of the
byte `g << 5` to register 0x01, and returns 0. -/
theorem set_gain_writes_once (client : I2cBus σ) (w : World σ) (g : Nat) (hg : g ≤ 7)
    (hbus : (client.i2c_smbus_write_byte_data w.dev HMC5883L_CONFIG_REG_B (g <<< 5)).1 = 0) :
    (hmc5883l_set_gain client g w).1 = 0
      ∧ issued w (hmc5883l_set_gain client g w).2
          = [Event.bus_write HMC5883L_CONFIG_REG_B (g <<< GAIN_SETTING_OFFSET)]
      ∧ bus_writes (issued w (hmc5883l_set_gain client g w).2) = [(1, g <<< 5)] := by
  have hmod : g % 8 = g := Nat.mod_eq_of_lt (by omega)
  have htrace : issued w (hmc5883l_set_gain client g w).2
      = [Event.bus_write 1 (g <<< 5)] :=
    issued_append _ _ _ (by rw [set_gain_eq, hmod])
  unfold HMC5883L_CONFIG_REG_B at hbus
  refine ⟨?_, htrace, ?_⟩
  · rw [set_gain_eq, hmod, hbus]
    simp
  · rw [htrace]
    rfl

/-- Witness of C4: gain index 3 on a register file; the byte written is 96. -/
theorem set_gain_writes_once_witness :
    (hmc5883l_set_gain regfile_bus 3 (world_init (fun _ => 0))).1 = 0
      ∧ bus_writes (issued (world_init (fun _ => 0))
          (hmc5883l_set_gain regfile_bus 3 (world_init (fun _ => 0))).2) = [(1, 96)] :=
  have h := set_gain_writes_once regfile_bus (world_init (fun _ => 0)) 3 (by decide)
    (by decide)
  ⟨h.1, h.2.2⟩

/-- C5 (the code departs from the claim): the gain argument 8 is outside
0..7, yet on every bus `hmc5883l_set_gain 8` takes the write path: it issues
the bus write of the byte 0 to register 0x01 (the encoding of gain index 0)
and returns what the write path returns, which on a register file is 0 and
not `-EINVAL`.  The same happens for the argument 255, written as 224. -/
theorem set_gain_out_of_range_is_written (client : I2cBus σ) (w : World σ) :
    issued w (hmc5883l_set_gain client 8 w).2 = [Event.bus_write HMC5883L_CONFIG_REG_B 0]
      ∧ (hmc5883l_set_gain client 8 w).1
          = (if (client.i2c_smbus_write_byte_data w.dev 1 0).1 > 0 then -EBUSY
             else (client.i2c_smbus_write_byte_data w.dev 1 0).1)
      ∧ issued w (hmc5883l_set_gain client 255 w).2
          = [Event.bus_write HMC5883L_CONFIG_REG_B 224]
      ∧ (hmc5883l_set_gain regfile_bus 8 (world_init (fun _ => 0))).1 = 0
      ∧ (hmc5883l_set_gain regfile_bus 8 (world_init (fun _ => 0))).1 ≠ -EINVAL := by
  refine ⟨issued_append _ _ _ (by rw [set_gain_eq]; rfl), by rw [set_gain_eq]; rfl,
    issued_append _ _ _ (by rw [set_gain_eq]; rfl), by decide, by decide⟩

/-! ## Mode -/

/-- C6 (the code departs from the claim): the mode argument 4 is outside
{0, 1, 2}, yet on every bus `hmc5883l_set_mode 4` issues the bus write of the
byte 0 (continuous mode) to register 0x02 and returns what the write path
returns, on a register file 0 and not `-EINVAL`; the argument 3 is rejected
with `-EINVAL` and a log line only. -/
theorem set_mode_out_of_range_is_written (client : I2cBus σ) (w : World σ) :
    issued w (hmc5883l_set_mode client 4 w).2 = [Event.bus_write HMC5883L_MODE_REG 0]
      ∧ (hmc5883l_set_mode client 4 w).1
          = (if (client.i2c_smbus_write_byte_data w.dev 2 0).1 > 0 then -EBUSY
             else (client.i2c_smbus_write_byte_data w.dev 2 0).1)
      ∧ (hmc5883l_set_mode regfile_bus 4 (world_init (fun _ => 0))).1 = 0
      ∧ (hmc5883l_set_mode regfile_bus 4 (world_init (fun _ => 0))).1 ≠ -EINVAL
      ∧ hmc5883l_set_mode client 3 w = (-EINVAL, E w) := by
  refine ⟨issued_append _ _ _ (by rw [set_mode_eq_valid _ _ _ (by decide)]; rfl),
    by rw [set_mode_eq_valid _ _ _ (by decide)], by decide, by decide,
    set_mode_eq_invalid _ _ _ (by decide)⟩

/-- C8 (the code departs from the claim): for the legal mode 1 (single),
`hmc5883l_set_mode` writes the byte 1 to register 0x02, and
`hmc5883l_get_mode` reading that byte back returns 0, not 1: the read byte is
masked with 2, the address of the mode register.  Modes 0 and 2 do come
back. -/
theorem mode_round_trip_loses_single :
    issued (world_init (fun _ => 0))
        (hmc5883l_set_mode regfile_bus 1 (world_init (fun _ => 0))).2
        = [Event.bus_write HMC5883L_MODE_REG 1]
      ∧ (hmc5883l_set_mode regfile_bus 1 (world_init (fun _ => 0))).1 = 0
      ∧ (hmc5883l_get_mode regfile_bus
          (hmc5883l_set_mode regfile_bus 1 (world_init (fun _ => 0))).2).1 = 0
      ∧ (hmc5883l_get_mode regfile_bus
          (hmc5883l_set_mode regfile_bus 0 (world_init (fun _ => 0))).2).1 = 0
      ∧ (hmc5883l_get_mode regfile_bus
          (hmc5883l_set_mode regfile_bus 2 (world_init (fun _ => 0))).2).1 = 2 := by
  decide

/-! ## Measurement bias -/

/-- C7 (the code departs from the claim): the bias argument 3 is outside
{0, 1, 2}, yet on every bus `hmc5883l_set_mesura 3` issues the bus write of
the byte 3 to register 0x00 and returns the result of that write, on a
register file 0 and not `-EINVAL`. -/
theorem set_mesura_out_of_range_is_written (client : I2cBus σ) (w : World σ) :
    issued w (hmc5883l_set_mesura client 3 w).2
        = [Event.bus_write HMC5883L_CONFIG_REG_A 3]
      ∧ (hmc5883l_set_mesura client 3 w).1
          = (client.i2c_smbus_write_byte_data w.dev 0 3).1
      ∧ (hmc5883l_set_mesura regfile_bus 3 (world_init (fun _ => 0))).1 = 0
      ∧ (hmc5883l_set_mesura regfile_bus 3 (world_init (fun _ => 0))).1 ≠ -EINVAL := by
  refine ⟨issued_append _ _ _ (by rw [set_mesura_eq]; rfl), by rw [set_mesura_eq],
    by decide, by decide⟩

/-! ## Output rate -/

/-- C9, as stated, fails: for the legal rate index 3 it is not the case that
`hmc5883l_set_data_out_rate` returns a result other than the success value 0
while issuing no bus write. -/
theorem set_data_out_rate_not_unsupported :
    ¬ ((hmc5883l_set_data_out_rate regfile_bus 3 (world_init (fun _ => 0))).1 ≠ 0
        ∧ bus_writes (issued (world_init (fun _ => 0))
            (hmc5883l_set_data_out_rate regfile_bus 3 (world_init (fun _ => 0))).2) = []) := by
  decide

/-- C9, amended: for every legal output-rate index (0..6),
`hmc5883l_set_data_out_rate` returns the success value 0, leaves the device,
the driver state and the trace as they were, and so issues no bus write. -/
theorem set_data_out_rate_legal (client : I2cBus σ) (w : World σ) (rate : Nat)
    (hrate : rate ≤ 6) :
    (hmc5883l_set_data_out_rate client rate w).1 = 0
      ∧ (hmc5883l_set_data_out_rate client rate w).2 = w
      ∧ bus_writes (issued w (hmc5883l_set_data_out_rate client rate w).2) = [] := by
  have hmod : rate % 8 = rate := Nat.mod_eq_of_lt (by omega)
  have hvalid : ¬ (((rate : Nat) : Int) ≥ 7 ∨ ((rate : Nat) : Int) < 0) := by omega
  have heq : hmc5883l_set_data_out_rate client rate w = (0, w) := by
    unfold hmc5883l_set_data_out_rate
    simp only [rate_field, hmod]
    rw [if_neg hvalid]
  rw [heq]
  refine ⟨rfl, rfl, ?_⟩
  simp [issued, bus_writes]

/-- Witness of the amended C9 at the rate index 3. -/
theorem set_data_out_rate_legal_witness :
    (hmc5883l_set_data_out_rate regfile_bus 3 (world_init (fun _ => 0))).1 = 0 :=
  (set_data_out_rate_legal regfile_bus (world_init (fun _ => 0)) 3 (by decide)).1

/-! ## Result of a write -/

/-- C10: let `rg` and `rm` be the results of the bus writes issued by
`hmc5883l_set_gain gain` and by `hmc5883l_set_mode mode`, for any gain
argument and for a mode argument accepted by the validation (low two bits
not both set).  Each function returns `-EBUSY` when the write result is
positive and the write result itself otherwise; its result is never
positive, is 0 exactly when the write returned 0, and `-EBUSY` differs
from `-EINVAL`. -/
theorem set_gain_set_mode_result (client : I2cBus σ) (w : World σ) (gain mode : Nat)
    (rg rm : Int) (hmode : mode % 4 < 3)
    (hrg : (client.i2c_smbus_write_byte_data w.dev HMC5883L_CONFIG_REG_B
              ((gain % 8) <<< GAIN_SETTING_OFFSET)).1 = rg)
    (hrm : (client.i2c_smbus_write_byte_data w.dev HMC5883L_MODE_REG (mode % 4)).1 = rm) :
    (hmc5883l_set_gain client gain w).1 = (if rg > 0 then -EBUSY else rg)
      ∧ (hmc5883l_set_mode client mode w).1 = (if rm > 0 then -EBUSY else rm)
      ∧ (hmc5883l_set_gain client gain w).1 ≤ 0
      ∧ (hmc5883l_set_mode client mode w).1 ≤ 0
      ∧ ((hmc5883l_set_gain client gain w).1 = 0 ↔ rg = 0)
      ∧ ((hmc5883l_set_mode client mode w).1 = 0 ↔ rm = 0)
      ∧ -EBUSY ≠ -EINVAL := by
  unfold HMC5883L_CONFIG_REG_B GAIN_SETTING_OFFSET at hrg
  unfold HMC5883L_MODE_REG at hrm
  have hg : (hmc5883l_set_gain client gain w).1 = (if rg > 0 then -EBUSY else rg) := by
    rw [set_gain_eq, hrg]
  have hm : (hmc5883l_set_mode client mode w).1 = (if rm > 0 then -EBUSY else rm) := by
    rw [set_mode_eq_valid client mode w hmode, hrm]
  rw [hg, hm]
  unfold EBUSY EINVAL
  refine ⟨rfl, rfl, ?_, ?_, ?_, ?_, by decide⟩
  · split <;> omega
  · split <;> omega
  · split <;> omega
  · split <;> omega

/-- Witness of C10: on a bus whose writes return 5, setting gain 3 and mode 1
both return `-EBUSY`. -/
theorem set_gain_set_mode_result_witness :
    (hmc5883l_set_gain (const_bus 5) 3 (world_init ())).1 = -EBUSY
      ∧ (hmc5883l_set_mode (const_bus 5) 1 (world_init ())).1 = -EBUSY :=
  have h := set_gain_set_mode_result (const_bus 5) (world_init ()) 3 1 5 5
    (by decide) rfl rfl
  ⟨h.1, h.2.1⟩

/-- C16: measurement-bias round trip.  For a legal bias `m` in {0, 1, 2},
`hmc5883l_set_mesura m` issues exactly the write of the byte `m` to
configuration register A (0x00), and on any bus whose read of register 0x00
returns that byte `hmc5883l_get_mesura` returns `m`. -/
theorem mesura_round_trip {τ : Type} (client : I2cBus σ) (w : World σ) (m : Nat)
    (hm : m ≤ 2) (client2 : I2cBus τ) (w2 : World τ)
    (hread : (client2.i2c_smbus_read_byte_data w2.dev HMC5883L_CONFIG_REG_A).1 = (m : Int)) :
    issued w (hmc5883l_set_mesura client m w).2
        = [Event.bus_write HMC5883L_CONFIG_REG_A m]
      ∧ (hmc5883l_get_mesura client2 w2).1 = m := by
  have hmod : m % 4 = m := Nat.mod_eq_of_lt (by omega)
  refine ⟨issued_append _ _ _ (by rw [set_mesura_eq, hmod]; rfl), ?_⟩
  unfold HMC5883L_CONFIG_REG_A at hread
  simp only [hmc5883l_get_mesura, hmc5883l_read_byte, HMC5883L_CONFIG_REG_A, Nat.zero_mod,
    hread, mesura_field, hmod]

/-- Witness of C16 on a register file, for the bias 2 (negative). -/
theorem mesura_round_trip_witness :
    issued (world_init (fun _ => 0))
        (hmc5883l_set_mesura regfile_bus 2 (world_init (fun _ => 0))).2
        = [Event.bus_write HMC5883L_CONFIG_REG_A 2]
      ∧ (hmc5883l_get_mesura regfile_bus
          (hmc5883l_set_mesura regfile_bus 2 (world_init (fun _ => 0))).2).1 = 2 :=
  mesura_round_trip regfile_bus (world_init (fun _ => 0)) 2 (by decide) regfile_bus
    (hmc5883l_set_mesura regfile_bus 2 (world_init (fun _ => 0))).2 (by decide)

/-! ## Version and probe -/

/-- C12: when the bus read issued by `hmc5883l_get_version` returns `v`, the
function returns `v` unmodified, its only bus transaction is that one read
(no write), and the driver state is unchanged; `hmc5883l_probe` returns 0,
issues the same single read and no write, and leaves the driver state
unchanged. -/
theorem get_version_returns_read (client : I2cBus σ) (w : World σ) (v : Int)
    (hv : (client.i2c_smbus_read_byte_data w.dev HMC5883L_CONFIG_REG_A).1 = v) :
    (hmc5883l_get_version client w).1 = v
      ∧ bus_reads (issued w (hmc5883l_get_version client w).2) = [HMC5883L_CONFIG_REG_A]
      ∧ bus_writes (issued w (hmc5883l_get_version client w).2) = []
      ∧ (hmc5883l_get_version client w).2.hmc5883l = w.hmc5883l
      ∧ (hmc5883l_probe client w).1 = 0
      ∧ bus_reads (issued w (hmc5883l_probe client w).2) = [HMC5883L_CONFIG_REG_A]
      ∧ bus_writes (issued w (hmc5883l_probe client w).2) = []
      ∧ (hmc5883l_probe client w).2.hmc5883l = w.hmc5883l := by
  have hget : issued w (hmc5883l_get_version client w).2 = [Event.bus_read 0] :=
    issued_append _ _ _ rfl
  have hprobe : issued w (hmc5883l_probe client w).2 = [Event.bus_read 0, Event.log_D] :=
    issued_append _ _ _ (by simp [hmc5883l_probe, hmc5883l_get_version, hmc5883l_read_byte,
      D, HMC5883L_CONFIG_REG_A])
  unfold HMC5883L_CONFIG_REG_A at hv
  rw [hget, hprobe]
  exact ⟨hv, rfl, rfl, rfl, rfl, rfl, rfl, rfl⟩

/-- Witness of C12: a register file whose register read by the function
holds the version byte 0x48. -/
theorem get_version_returns_read_witness :
    (hmc5883l_get_version regfile_bus (world_init (fun _ => 0x48))).1 = 0x48
      ∧ (hmc5883l_probe regfile_bus (world_init (fun _ => 0x48))).1 = 0 :=
  have h := get_version_returns_read regfile_bus (world_init (fun _ => 0x48)) 0x48
    (by decide)
  ⟨h.1, h.2.2.2.2.1⟩

/-- C17 (the code departs from the claim): on every bus the single read
issued by `hmc5883l_get_version`, and by `hmc5883l_probe`, is of register
0x00, which is configuration register A and none of the status register 0x09
or the identification registers 0x0A..0x0C.  On a register file holding 0x10
in register 0x00 and 0x48 in identification register A, the function returns
0x10. -/
theorem get_version_reads_config_reg (client : I2cBus σ) (w : World σ) :
    bus_reads (issued w (hmc5883l_get_version client w).2) = [HMC5883L_CONFIG_REG_A]
      ∧ bus_reads (issued w (hmc5883l_probe client w).2) = [HMC5883L_CONFIG_REG_A]
      ∧ HMC5883L_CONFIG_REG_A ≠ HMC5883L_STATUS_REG
      ∧ HMC5883L_CONFIG_REG_A ≠ HMC5883L_IDENTIFY_REG_A
      ∧ HMC5883L_CONFIG_REG_A ≠ HMC5883L_IDENTIFY_REG_B
      ∧ HMC5883L_CONFIG_REG_A ≠ HMC5883L_IDENTIFY_REG_C
      ∧ (hmc5883l_get_version regfile_bus
          (world_init (fun r => if r = 0 then 0x10 else if r = 0x0A then 0x48 else 0))).1
          = 0x10 := by
  have hget : issued w (hmc5883l_get_version client w).2 = [Event.bus_read 0] :=
    issued_append _ _ _ rfl
  have hprobe : issued w (hmc5883l_probe client w).2 = [Event.bus_read 0, Event.log_D] :=
    issued_append _ _ _ (by simp [hmc5883l_probe, hmc5883l_get_version, hmc5883l_read_byte,
      D, HMC5883L_CONFIG_REG_A])
  rw [hget, hprobe]
  exact ⟨rfl, rfl, by decide, by decide, by decide, by decide, by decide⟩

/-! ## Independence of gain and mode -/

theorem and_three_eq_mod (m : Nat) : m &&& 3 = m % 4 :=
  Nat.and_pow_two_sub_one_eq_mod m 2

theorem and_seven_eq_mod (g : Nat) : g &&& 7 = g % 8 :=
  Nat.and_pow_two_sub_one_eq_mod g 3

/-- C13: over a register file, `hmc5883l_set_gain` changes register 0x01
only and `hmc5883l_set_mode` changes register 0x02 only (or nothing, when it
rejects its argument); their bus writes go to those registers; and for every
gain and mode argument `hmc5883l_get_mode` decodes the same value before and
after a `hmc5883l_set_gain`, and `hmc5883l_get_gain` the same value before
and after a `hmc5883l_set_mode`. -/
theorem gain_mode_independent (w : World (Nat → Nat)) (gain mode : Nat) :
    (hmc5883l_set_gain regfile_bus gain w).2.dev
        = (fun r => if r = HMC5883L_CONFIG_REG_B then (gain % 8) <<< 5 else w.dev r)
      ∧ (hmc5883l_set_mode regfile_bus mode w).2.dev
        = (if mode % 4 < 3 then (fun r => if r = HMC5883L_MODE_REG then mode % 4 else w.dev r)
           else w.dev)
      ∧ (bus_writes (issued w (hmc5883l_set_gain regfile_bus gain w).2)).map Prod.fst
        = [HMC5883L_CONFIG_REG_B]
      ∧ (bus_writes (issued w (hmc5883l_set_mode regfile_bus mode w).2)).map Prod.fst
        = (if mode % 4 < 3 then [HMC5883L_MODE_REG] else [])
      ∧ (hmc5883l_get_mode regfile_bus (hmc5883l_set_gain regfile_bus gain w).2).1
        = (hmc5883l_get_mode regfile_bus w).1
      ∧ (hmc5883l_get_gain regfile_bus (hmc5883l_set_mode regfile_bus mode w).2).1
        = (hmc5883l_get_gain regfile_bus w).1 := by
  have hgain_trace : issued w (hmc5883l_set_gain regfile_bus gain w).2
      = [Event.bus_write 1 ((gain % 8) <<< 5)] :=
    issued_append _ _ _ (by rw [set_gain_eq])
  rw [hgain_trace]
  by_cases hmode : mode % 4 < 3
  · have hmode_trace : issued w (hmc5883l_set_mode regfile_bus mode w).2
        = [Event.bus_write 2 (mode % 4)] :=
      issued_append _ _ _ (by rw [set_mode_eq_valid _ _ _ hmode])
    rw [hmode_trace, set_gain_eq, set_mode_eq_valid _ _ _ hmode, if_pos hmode, if_pos hmode]
    refine ⟨rfl, rfl, rfl, rfl, ?_, ?_⟩
    · simp [hmc5883l_get_mode, hmc5883l_read_byte, regfile_bus, HMC5883L_MODE_REG]
    · simp [hmc5883l_get_gain, hmc5883l_read_byte, regfile_bus, HMC5883L_CONFIG_REG_B]
  · have hthree : mode % 4 = 3 := by omega
    have hmode_trace : issued w (hmc5883l_set_mode regfile_bus mode w).2 = [Event.log_E] :=
      issued_append _ _ _ (by rw [set_mode_eq_invalid _ _ _ hthree]; rfl)
    rw [hmode_trace, set_gain_eq, set_mode_eq_invalid _ _ _ hthree, if_neg hmode,
      if_neg hmode]
    refine ⟨rfl, rfl, rfl, rfl, ?_, ?_⟩
    · simp [hmc5883l_get_mode, hmc5883l_read_byte, regfile_bus, HMC5883L_MODE_REG]
    · simp [hmc5883l_get_gain, hmc5883l_read_byte, regfile_bus, E]

/-! ## Width of the written bytes -/

/-- C18: for every argument, the bus write of `hmc5883l_set_gain` carries the
byte `(gain & 7) << 5`, which is at most 224 and has bits 0..4 clear; every
bus write of `hmc5883l_set_mode` carries one of the bytes 0, 1, 2, with bits
2..7 clear; the bus write of `hmc5883l_set_mesura` carries a byte with bits
2..7 clear. -/
theorem written_bytes_fit (client : I2cBus σ) (w : World σ) (gain mode mesura : Nat) :
    (bus_writes (issued w (hmc5883l_set_gain client gain w).2)
        = [(HMC5883L_CONFIG_REG_B, (gain &&& 7) <<< 5)]
      ∧ (gain &&& 7) <<< 5 ≤ 224 ∧ ((gain &&& 7) <<< 5) &&& 31 = 0)
      ∧ ((bus_writes (issued w (hmc5883l_set_mode client mode w).2) = []
          ∨ bus_writes (issued w (hmc5883l_set_mode client mode w).2)
              = [(HMC5883L_MODE_REG, mode &&& 3)])
        ∧ (bus_writes (issued w (hmc5883l_set_mode client mode w).2)).all
            (fun p => decide (p.2 ≤ 2 ∧ p.2 &&& 252 = 0)) = true)
      ∧ (bus_writes (issued w (hmc5883l_set_mesura client mesura w).2)
          = [(HMC5883L_CONFIG_REG_A, mesura &&& 3)]
        ∧ (mesura &&& 3) &&& 252 = 0) := by
  have hgain_trace : issued w (hmc5883l_set_gain client gain w).2
      = [Event.bus_write 1 ((gain % 8) <<< 5)] :=
    issued_append _ _ _ (by rw [set_gain_eq])
  have hmesura_trace : issued w (hmc5883l_set_mesura client mesura w).2
      = [Event.bus_write 0 (mesura % 4)] :=
    issued_append _ _ _ (by rw [set_mesura_eq])
  have hg : gain % 8 < 8 := Nat.mod_lt _ (by decide)
  have hb : mesura % 4 < 4 := Nat.mod_lt _ (by decide)
  have hm : mode % 4 < 4 := Nat.mod_lt _ (by decide)
  rw [hgain_trace, hmesura_trace, and_seven_eq_mod, and_three_eq_mod, and_three_eq_mod]
  refine ⟨⟨rfl, ?_, ?_⟩, ?_, ⟨rfl, ?_⟩⟩
  · generalize gain % 8 = k at hg
    interval_cases k <;> decide
  · generalize gain % 8 = k at hg
    interval_cases k <;> decide
  · by_cases hmode : mode % 4 < 3
    · have hmode_trace : issued w (hmc5883l_set_mode client mode w).2
          = [Event.bus_write 2 (mode % 4)] :=
        issued_append _ _ _ (by rw [set_mode_eq_valid _ _ _ hmode])
      rw [hmode_trace]
      refine ⟨Or.inr rfl, ?_⟩
      generalize mode % 4 = k at hmode
      interval_cases k <;> decide
    · have hthree : mode % 4 = 3 := by omega
      have hmode_trace : issued w (hmc5883l_set_mode client mode w).2 = [Event.log_E] :=
        issued_append _ _ _ (by rw [set_mode_eq_invalid _ _ _ hthree]; rfl)
      rw [hmode_trace]
      exact ⟨Or.inl rfl, rfl⟩
  · generalize mesura % 4 = k at hb
    interval_cases k <;> decide

/-! ## Lock discipline of the interrupt handler -/

theorem capture_trace (client : I2cBus σ) (w : World σ) :
    ∃ x y z : Nat, (capture client w).trace
      = w.trace ++ [Event.bus_read 3, Event.store_x x, Event.bus_read 3, Event.store_y y,
                    Event.bus_read 3, Event.store_z z] :=
  ⟨_, _, _, by
    simp only [capture, hmc5883l_read_byte, set_x_axis, set_y_axis, set_z_axis,
      HMC5883L_DATA_OUT_REG, List.append_assoc, List.singleton_append, List.cons_append,
      List.nil_append]
    rfl⟩

/-- C14: for every bus and every world, the events of `hmc5883l_interrupt`
begin with the acquisition of the lock and end with its release, the lock is
acquired once and released once, every bus transaction and axis store in
between happens while it is held (`lock_scan` from the free state succeeds
and ends free), the handler returns `IRQ_HANDLED` and the lock is free on
return.  Each piece of the guarded region, whichever way the guard goes (the
status reads, the capture branch, the log branch), keeps the lock held and
contains no lock operation. -/
theorem interrupt_lock_discipline (client : I2cBus σ) (irq : Int) (w : World σ) :
    (hmc5883l_interrupt client irq w).1 = IRQ_HANDLED
      ∧ (issued w (hmc5883l_interrupt client irq w).2).head? = some Event.mutex_lock
      ∧ (issued w (hmc5883l_interrupt client irq w).2).getLast? = some Event.mutex_unlock
      ∧ (issued w (hmc5883l_interrupt client irq w).2).count Event.mutex_lock = 1
      ∧ (issued w (hmc5883l_interrupt client irq w).2).count Event.mutex_unlock = 1
      ∧ lock_scan false (issued w (hmc5883l_interrupt client irq w).2) = some false
      ∧ (hmc5883l_interrupt client irq w).2.hmc5883l.lock = false
      ∧ lock_scan true (issued w (hmc5883l_is_data_ready client w).2) = some true
      ∧ lock_scan true (issued w (hmc5883l_is_reg_locked client w).2) = some true
      ∧ lock_scan true (issued w (capture client w)) = some true
      ∧ lock_scan true (issued w (D w)) = some true := by
  have htrace : issued w (hmc5883l_interrupt client irq w).2
      = [Event.mutex_lock, Event.bus_read 9, Event.log_D, Event.mutex_unlock] :=
    issued_append _ _ _ (by rw [interrupt_eq])
  have hready : issued w (hmc5883l_is_data_ready client w).2 = [Event.bus_read 9] :=
    issued_append _ _ _ (by rw [is_data_ready_eq])
  have hlocked : issued w (hmc5883l_is_reg_locked client w).2 = [Event.bus_read 9] :=
    issued_append _ _ _ rfl
  have hlog : issued w (D w) = [Event.log_D] := issued_append _ _ _ rfl
  obtain ⟨x, y, z, hcap⟩ := capture_trace client w
  rw [htrace, hready, hlocked, hlog, issued_append _ _ _ hcap, interrupt_eq]
  exact ⟨rfl, rfl, rfl, by decide, by decide, rfl, rfl, rfl, rfl, rfl, rfl⟩

/-! ## The readiness mask -/

/-- C19: `DATA_READY` is 0, so `hmc5883l_is_data_ready` returns false on
every bus and in every state; hence `hmc5883l_interrupt` always issues
exactly one bus read, of the status register 0x09 (the lock test, which
would read it a second time, is not evaluated), no read of the data register
0x03, and leaves `x_axis`, `y_axis`, `z_axis` unchanged. -/
theorem interrupt_never_captures (client : I2cBus σ) (irq : Int) (w : World σ) :
    DATA_READY = 0
      ∧ (hmc5883l_is_data_ready client w).1 = false
      ∧ issued w (hmc5883l_interrupt client irq w).2
          = [Event.mutex_lock, Event.bus_read HMC5883L_STATUS_REG, Event.log_D,
             Event.mutex_unlock]
      ∧ bus_reads (issued w (hmc5883l_interrupt client irq w).2) = [HMC5883L_STATUS_REG]
      ∧ count_reads HMC5883L_DATA_OUT_REG (issued w (hmc5883l_interrupt client irq w).2) = 0
      ∧ (hmc5883l_interrupt client irq w).2.hmc5883l.x_axis = w.hmc5883l.x_axis
      ∧ (hmc5883l_interrupt client irq w).2.hmc5883l.y_axis = w.hmc5883l.y_axis
      ∧ (hmc5883l_interrupt client irq w).2.hmc5883l.z_axis = w.hmc5883l.z_axis := by
  have htrace : issued w (hmc5883l_interrupt client irq w).2
      = [Event.mutex_lock, Event.bus_read 9, Event.log_D, Event.mutex_unlock] :=
    issued_append _ _ _ (by rw [interrupt_eq])
  rw [htrace, interrupt_eq, is_data_ready_eq]
  exact ⟨val_DATA_READY, rfl, rfl, rfl, by decide, rfl, rfl, rfl⟩

/-! ## Configuration register A as a whole -/

/-- C20: over a register file, for every argument `m`,
`hmc5883l_set_mesura m` issues the write of the byte `m & 3` to register
0x00 and succeeds; afterwards register 0x00 holds `m & 3`, so its
sample-average field (bits 5..6) and its output-rate field (bits 2..4) are 0
whatever the register held before.  For instance a register holding 0x78
(both fields non-zero) holds 1 after setting the bias 1. -/
theorem set_mesura_clears_config_a (w : World (Nat → Nat)) (m : Nat) :
    issued w (hmc5883l_set_mesura regfile_bus m w).2
        = [Event.bus_write HMC5883L_CONFIG_REG_A (m &&& 3)]
      ∧ (hmc5883l_set_mesura regfile_bus m w).1 = 0
      ∧ (hmc5883l_set_mesura regfile_bus m w).2.dev HMC5883L_CONFIG_REG_A = m &&& 3
      ∧ s32_and (s32_shr (((hmc5883l_set_mesura regfile_bus m w).2.dev
          HMC5883L_CONFIG_REG_A : Nat) : Int) SAMPLE_AVER_OFFSET) SAMPLE_AVER = 0
      ∧ s32_and (s32_shr (((hmc5883l_set_mesura regfile_bus m w).2.dev
          HMC5883L_CONFIG_REG_A : Nat) : Int) DATA_OUT_RATE_OFFSET) DATA_OUT_RATE = 0
      ∧ (hmc5883l_set_mesura regfile_bus 1 (world_init (fun _ => 0x78))).2.dev
          HMC5883L_CONFIG_REG_A = 1 := by
  have htrace : issued w (hmc5883l_set_mesura regfile_bus m w).2
      = [Event.bus_write 0 (m % 4)] :=
    issued_append _ _ _ (by rw [set_mesura_eq])
  have hdev : (hmc5883l_set_mesura regfile_bus m w).2.dev HMC5883L_CONFIG_REG_A = m % 4 := by
    rw [set_mesura_eq]
    rfl
  have hm : m % 4 < 4 := Nat.mod_lt _ (by decide)
  rw [htrace, hdev, and_three_eq_mod, set_mesura_eq]
  refine ⟨rfl, rfl, rfl, ?_, ?_, by decide⟩
  · generalize m % 4 = k at hm
    interval_cases k <;> decide
  · generalize m % 4 = k at hm
    interval_cases k <;> decide

end Hmc5883l
